import Mathlib

/-!
Verification development for the stock-scraper repository (main.py, main2.py).

The Python sources are shallowly embedded: network and DOM effects are
represented by explicit "world" parameters (one oracle per nondeterministic
step), machine/dict state is passed explicitly, and Python exceptions are
represented by `Except` or by error-record return values, exactly where the
source catches or does not catch them.  HTML parsing via BeautifulSoup is an
external collaborator: pages are modelled as the already-extracted structures
the source reads off the soup (tables as lists of rows of cell strings, link
href lists, and so on), while all post-extraction logic (cleaning, numeric
coercion, retry loops, aggregation, batching) is translated line by line.
-/

/-- The whitespace characters Python `str.strip()` removes. -/
def isSpaceChar (c : Char) : Bool :=
  c = ' ' || c = '\t' || c = '\n' || c = '\r' || c = '\x0b' || c = '\x0c'

/-- Modelled from the collaborator: Python `str.strip()` on the usual
whitespace characters. -/
def pyStrip (s : String) : String :=
  String.mk (((s.toList.dropWhile isSpaceChar).reverse.dropWhile isSpaceChar).reverse)

/-- Model of Python `str.upper()` (ASCII adequate for the data handled). -/
def strUpper (s : String) : String := String.mk (s.toList.map Char.toUpper)

/-- Model of Python `str.lower()` (ASCII adequate for the data handled). -/
def strLower (s : String) : String := String.mk (s.toList.map Char.toLower)

/-- Model of Python `s.startswith(pre)`. -/
def strStartsWith (s pre : String) : Bool := pre.toList.isPrefixOf s.toList

/-- Model of Python `s.endswith(suf)`. -/
def strEndsWith (s suf : String) : Bool := suf.toList.isSuffixOf s.toList

/-- Model of Python `s.split(sep)` for a one-character separator. -/
def splitChar (sep : Char) : List Char → List (List Char)
  | [] => [[]]
  | c :: rest =>
    match splitChar sep rest with
    | [] => [[]]
    | seg :: segs => if c = sep then [] :: seg :: segs else (c :: seg) :: segs

/-- `s.split(sep)[-1]`: the part after the last separator. -/
def lastSegment (sep : Char) (s : String) : String :=
  String.mk ((splitChar sep s.toList).getLastD [])

/-- Model of Python `s.replace(",", "")` : drop every comma. -/
def stripCommas (s : String) : String := String.mk (s.toList.filter (fun c => c != ','))

/-- Model of Python `s.replace("%", "")` : drop every percent sign. -/
def stripPct (s : String) : String := String.mk (s.toList.filter (fun c => c != '%'))

/-- Helper for `substrIn`: does `needle` occur as a contiguous run in the list? -/
def substrAux (needle : List Char) : List Char → Bool
  | [] => needle.isEmpty
  | c :: rest => needle.isPrefixOf (c :: rest) || substrAux needle rest

/-- Model of Python `needle in hay` on strings (contiguous substring test). -/
def substrIn (needle hay : String) : Bool := substrAux needle.toList hay.toList

/-- Numeric value of a digit character. -/
def digitVal (c : Char) : Nat := c.toNat - 48

/-- Decimal value of a digit list (most significant first). -/
def natOfDigits (cs : List Char) : Nat := cs.foldl (fun n c => 10 * n + digitVal c) 0

/-- Modelled from the collaborator: Python `float()` on plain signed decimal
literals (optional sign, digits, optional fractional part, surrounding
whitespace stripped).  Returns `none` exactly when Python raises `ValueError`
on such inputs.  Exotic accepted forms (exponents, `inf`, `nan`, underscores)
do not occur in the repository's data paths and are not modelled. -/
def pyFloatCore (cs : List Char) : Option Rat :=
  let sign : Rat := match cs with
    | '-' :: _ => -1
    | _ => 1
  let cs2 : List Char := match cs with
    | '-' :: rest => rest
    | '+' :: rest => rest
    | rest => rest
  let intPart := cs2.takeWhile Char.isDigit
  let rest := cs2.dropWhile Char.isDigit
  match rest with
  | [] => if intPart.isEmpty then none else some (sign * (natOfDigits intPart : Rat))
  | '.' :: frac =>
    if frac.all Char.isDigit && !(intPart.isEmpty && frac.isEmpty) then
      some (sign * ((natOfDigits intPart : Rat) +
        (natOfDigits frac : Rat) / (10 : Rat) ^ frac.length))
    else none
  | _ => none

/-- Python `float()` on a string, see `pyFloatCore`. -/
def pyFloat? (s : String) : Option Rat := pyFloatCore (pyStrip s).toList

/-- Modelled from the collaborator: Python `int()` on plain signed decimal
literals; `none` exactly when Python raises `ValueError` on such inputs. -/
def pyInt? (s : String) : Option Int :=
  match (pyStrip s).toList with
  | '-' :: ds => if !ds.isEmpty && ds.all Char.isDigit then some (-(natOfDigits ds : Int)) else none
  | '+' :: ds => if !ds.isEmpty && ds.all Char.isDigit then some ((natOfDigits ds : Int)) else none
  | ds => if !ds.isEmpty && ds.all Char.isDigit then some ((natOfDigits ds : Int)) else none

/-- Membership of a key in a list of keys, Bool-valued (Python `in` on dict keys). -/
def keyMem : List String → String → Bool
  | [], _ => false
  | x :: xs, s => if x = s then true else keyMem xs s

/-- Model of Python dict assignment `d[k] = v`: insertion-ordered map where an
existing key keeps its position and gets the new value, a new key is appended. -/
def dictInsert {β : Type} : List (String × β) → String → β → List (String × β)
  | [], k, v => [(k, v)]
  | (k0, v0) :: rest, k, v =>
    if k0 = k then (k0, v) :: rest
    else (k0, v0) :: dictInsert rest k v

/-- Model of Python dict read `d[k]` / `d.get(k)`. -/
def dictLookup {β : Type} : List (String × β) → String → Option β
  | [], _ => none
  | (k0, v0) :: rest, k => if k0 = k then some v0 else dictLookup rest k

/-- Does the association list have an entry for the key (Python `k in d`)? -/
def containsKey {β : Type} (d : List (String × β)) (s : String) : Bool :=
  keyMem (d.map Prod.fst) s

/-- Bool-valued membership of a character in a regex character class. -/
def charIn (c : Char) : List Char → Bool
  | [] => false
  | x :: xs => if x = c then true else charIn c xs

/-- The regex class `\d` = `[0-9]` (the filenames scanned are ASCII). -/
def digitClass : List Char := ['0', '1', '2', '3', '4', '5', '6', '7', '8', '9']

namespace Main2

/-! ## Transport: `safe_request` (main2.py lines 40-59)

One network attempt is an oracle value: either `requests.get` itself raised a
`RequestException` (connection error, timeout, malformed URL, ...) or it
returned a response with a status code and body.  `raise_for_status` raises
`HTTPError` — also a `RequestException` — for every status `≥ 400`. -/

/-- Outcome of one `requests.get` call. -/
inductive Attempt
  | exn (msg : String)
  | resp (status : Nat) (body : String)
deriving DecidableEq

/-- Does this attempt end in the `except requests.exceptions.RequestException`
branch of `safe_request`?  True for a raised `RequestException` and for any
status `≥ 400` (via `raise_for_status`). -/
def attemptRaises : Attempt → Bool
  | .exn _ => true
  | .resp s _ => decide (400 ≤ s)

/-- The retry loop of `safe_request`: `i` is the 0-indexed attempt about to be
made, the second argument the number of loop iterations left.  Returns the
response (status, body) or `None`, together with the number of attempts made. -/
def safeRequestGo (world : Nat → Attempt) : Nat → Nat → Option (Nat × String) × Nat
  | i, 0 => (none, i)
  | i, r + 1 =>
    match world i with
    | .exn _ =>
      if r = 0 then (none, i + 1) else safeRequestGo world (i + 1) r
    | .resp s b =>
      if 400 ≤ s then
        (if r = 0 then (none, i + 1) else safeRequestGo world (i + 1) r)
      else (some (s, b), i + 1)

/-- `safe_request(url, max_retries)` from main2.py: retry every
`RequestException` up to `max_retries` attempts, return the response or `None`.
The second component instruments the number of attempts actually made. -/
def safe_request (world : Nat → Attempt) (max_retries : Nat) : Option (Nat × String) × Nat :=
  safeRequestGo world 0 max_retries

/-! ## `get_safe_driver` (main2.py lines 62-82) -/

/-- Driver-creation retry loop: the oracle says whether `webdriver.Chrome()`
succeeds on attempt `i`.  Returns the driver (as `Unit`) or `None`, plus the
number of creation attempts made. -/
def getSafeDriverGo (world : Nat → Bool) : Nat → Nat → Option Unit × Nat
  | i, 0 => (none, i)
  | i, r + 1 =>
    if world i then (some (), i + 1)
    else if r = 0 then (none, i + 1) else getSafeDriverGo world (i + 1) r

/-- `get_safe_driver(max_retries=3)` from main2.py. -/
def get_safe_driver (world : Nat → Bool) (max_retries : Nat) : Option Unit × Nat :=
  getSafeDriverGo world 0 max_retries

/-! ## Rendered-page fetch: `fetch_factsheet_selenium` (main2.py lines 85-194)

The DOM selector work on the fetched page is per-field guarded in the source
and is an external collaborator (spec section 6); the model keeps the page
source string that the record was parsed from and records the resource and
reload behaviour, which is what the claims are about. -/

/-- World for one rendered-page fetch. -/
structure SeleniumWorld where
  /-- whether `webdriver.Chrome()` succeeds on creation attempt `i` -/
  driverWorld : Nat → Bool
  /-- `driver.get(url)` raises -/
  getRaises : Bool
  /-- `driver.page_source` after the first load and 5s settle wait -/
  initialSource : String
  /-- `driver.page_source` after `driver.refresh()` and its 5s wait -/
  refreshedSource : String
  /-- an unexpected exception occurs in the parsing body (outer `except` path) -/
  bodyRaises : Bool

/-- Result dict of `fetch_factsheet_selenium`: either the data dict parsed
from a page source, or the `{"symbol": ..., "error": ...}` dict. -/
inductive SelResult
  | ok (symbol : String) (parsedSource : String)
  | err (symbol : String) (msg : String)
deriving DecidableEq

/-- Execution trace of one rendered-page fetch. -/
structure SelTrace where
  /-- a driver was actually created -/
  acquired : Bool
  /-- `driver.quit()` was reached (the `finally` block with a live driver) -/
  released : Bool
  /-- number of `driver.refresh()` calls performed -/
  refreshes : Nat
  /-- number of `webdriver.Chrome()` creation attempts made -/
  driverAttempts : Nat
  /-- the returned dict -/
  result : SelResult

/-- The incomplete-load heuristic of main2.py line 102: the Thai "no data
found" marker occurs in the page source, or the source is shorter than 1000
characters. -/
def pageIncomplete (s : String) : Bool :=
  substrIn "ไม่พบข้อมูล" s || s.length < 1000

/-- `fetch_factsheet_selenium(symbol)` from main2.py: create a driver (3
creation attempts), load the page, wait, reload once if the content looks
incomplete, parse, and always `quit()` the driver in `finally`. -/
def fetch_factsheet_selenium (symbol : String) (w : SeleniumWorld) : SelTrace :=
  let dres := get_safe_driver w.driverWorld 3
  if dres.1.isNone then
    ⟨false, false, 0, dres.2, .err symbol "Failed to create driver"⟩
  else if w.getRaises then
    ⟨true, true, 0, dres.2, .err symbol "WebDriverException"⟩
  else
    let incomplete := pageIncomplete w.initialSource
    let source := if incomplete then w.refreshedSource else w.initialSource
    let refreshes := if incomplete then 1 else 0
    if w.bodyRaises then ⟨true, true, refreshes, dres.2, .err symbol "Unexpected error"⟩
    else ⟨true, true, refreshes, dres.2, .ok symbol source⟩

/-! ## Extractor: `fetch_company_highlights` (main2.py lines 196-244) -/

/-- One HTML table as the source reads it: its full text (for the marker
membership tests) and its `tr` rows, each a list of `td` cell texts as
returned by `get_text(strip=True)` (before the comma stripping, which the
source applies explicitly and the model does too). -/
structure HlTable where
  text : String
  rows : List (List String)
deriving DecidableEq

/-- Transport outcome seen by `fetch_company_highlights`: `failure` is
`safe_request` returning `None`, `success` carries the tables of the page. -/
inductive HlOutcome
  | failure
  | success (tables : List HlTable)
deriving DecidableEq

/-- One parsed row of the company-highlights financial table. -/
structure FinItem where
  year : Option Int
  revenue : Option Rat
  net_profit : Option Rat
  eps : Option Rat
  bvps : Option Rat
  roe : Option Rat
  net_profit_margin : Option Rat
  pe : Option Rat
  pbv : Option Rat
deriving DecidableEq

/-- `float(cols[i]) if cols[i] and cols[i] != '-' else None` — the `Except`
error is the `ValueError` that aborts the row. -/
def numField (s : String) : Except Unit (Option Rat) :=
  if s = "" || s = "-" then Except.ok none
  else
    match pyFloat? s with
    | some q => Except.ok (some q)
    | none => Except.error ()

/-- `int(cols[0]) if cols[0] else None`. -/
def yearField (s : String) : Except Unit (Option Int) :=
  if s = "" then Except.ok none
  else
    match pyInt? s with
    | some n => Except.ok (some n)
    | none => Except.error ()

/-- One iteration of the row loop in `fetch_company_highlights`: cells are
comma-stripped, rows with fewer than 9 cells are skipped, a `ValueError`
while coercing any cell skips the whole row (`except ... continue`). -/
def parseFinRow (raw : List String) : Option FinItem :=
  match raw.map stripCommas with
  | c0 :: c1 :: c2 :: c3 :: c4 :: c5 :: c6 :: c7 :: c8 :: _ =>
    (do
      let y ← yearField c0
      let rev ← numField c1
      let np ← numField c2
      let e ← numField c3
      let b ← numField c4
      let r ← numField c5
      let m ← numField c6
      let pe ← numField c7
      let pbv ← numField c8
      Except.ok (⟨y, rev, np, e, b, r, m, pe, pbv⟩ : FinItem)).toOption
  | _ => none

/-- The returned dict of `fetch_company_highlights`: `financials` is `none`
when the error return carries no `highlights` key at all. -/
structure HighlightsRecord where
  symbol : String
  error : Option String
  financials : Option (List FinItem)
deriving DecidableEq

/-- `fetch_company_highlights(symbol)` from main2.py, downstream of
`safe_request`. -/
def fetch_company_highlights (symbol : String) (out : HlOutcome) : HighlightsRecord :=
  match out with
  | .failure => ⟨symbol, some "Failed to fetch highlights page", none⟩
  | .success tables =>
    let marked := tables.filter (fun t => substrIn "ปี" t.text && substrIn "รายได้รวม" t.text)
    let items := marked.flatMap (fun t => (t.rows.drop 1).filterMap parseFinRow)
    ⟨symbol, none, some items⟩

/-! ## Extractor: `fetch_rights_benefits` (main2.py lines 246-285) -/

/-- One entry of the rights-and-benefits JSON `data` array. -/
structure RightsItem where
  rightsType : String
  entitlementYear : Option String
  benefitType : Option String
  signPostDate : Option String
  xdDate : Option String
  paymentDate : Option String
  amount : Option Rat
  remark : Option String
deriving DecidableEq

/-- One dividend record produced by the extractor. -/
structure DividendRec where
  year : Option String
  benefit_type : Option String
  announce_date : Option String
  xd_date : Option String
  payment_date : Option String
  amount_per_share : Option Rat
  note : Option String
deriving DecidableEq

/-- Transport/decoding outcome seen by `fetch_rights_benefits`. -/
inductive RbOutcome
  | failure
  | badJson
  | success (items : List RightsItem)
deriving DecidableEq

/-- The returned dict of `fetch_rights_benefits`. -/
structure RightsRecord where
  symbol : String
  error : Option String
  dividends : List DividendRec
deriving DecidableEq

/-- `fetch_rights_benefits(symbol)` from main2.py: keep only entries whose
`rightsType` is the Thai word for dividend. -/
def fetch_rights_benefits (symbol : String) (out : RbOutcome) : RightsRecord :=
  match out with
  | .failure => ⟨symbol, some "Failed to fetch rights & benefits", []⟩
  | .badJson => ⟨symbol, some "Invalid JSON response", []⟩
  | .success items =>
    let divs := (items.filter (fun it => it.rightsType = "เงินปันผล")).map
      (fun it => (⟨it.entitlementYear, it.benefitType, it.signPostDate, it.xdDate,
        it.paymentDate, it.amount, it.remark⟩ : DividendRec))
    ⟨symbol, none, divs⟩

/-! ## Extractor: `fetch_financial_statements` (main2.py lines 287-328) -/

/-- Leftmost match of the pattern `20\d{2}` (main2.py line 309): try to match
at the head of the character list. -/
def matchYearAt : List Char → Option (List Char)
  | '2' :: '0' :: a :: b :: _ =>
    if charIn a digitClass && charIn b digitClass then some ['2', '0', a, b] else none
  | _ => none

/-- `re.search(r"(20\d{2})", file_name)`: scan left to right. -/
def searchYear : List Char → Option (List Char)
  | [] => none
  | c :: cs =>
    match matchYearAt (c :: cs) with
    | some m => some m
    | none => searchYear cs

/-- Try the pattern `q[1-4]|y(?:early)?` at the head of the list, alternatives
in regex order, the optional group greedy. -/
def matchPeriodAt : List Char → Option (List Char)
  | 'q' :: c :: _ =>
    if charIn c ['1', '2', '3', '4'] then some ['q', c] else none
  | 'y' :: rest =>
    if ['e', 'a', 'r', 'l', 'y'].isPrefixOf rest then some ['y', 'e', 'a', 'r', 'l', 'y']
    else some ['y']
  | _ => none

/-- `re.search(r"q[1-4]|y(?:early)?", file_name)`: scan left to right. -/
def searchPeriod : List Char → Option (List Char)
  | [] => none
  | c :: cs =>
    match matchPeriodAt (c :: cs) with
    | some m => some m
    | none => searchPeriod cs

/-- Does the href end in `.pdf`, `.xls` or `.xlsx`, case-insensitively
(`re.search(r"\.(pdf|xls|xlsx)$", href, re.IGNORECASE)`)? -/
def extOK (href : String) : Bool :=
  let h := strLower href
  strEndsWith h ".pdf" || strEndsWith h ".xls" || strEndsWith h ".xlsx"

/-- One entry of the `financial_statements` list. -/
structure FileMeta where
  url : String
  year : Option String
  period : String
  language : String
  filetype : String
deriving DecidableEq

/-- The per-link metadata block of `fetch_financial_statements` (main2.py
lines 306-318): absolute URL, lowercased basename, year and period by regex
search, language by substring membership, type from the URL extension. -/
def mkFileMeta (href : String) : FileMeta :=
  let file_url := if strStartsWith href "http" then href else "https://www.set.or.th" ++ href
  let file_name := strLower (lastSegment '/' file_url)
  let year := (searchYear file_name.toList).map String.mk
  let period :=
    match searchPeriod file_name.toList with
    | some m => strUpper (String.mk m)
    | none => "UNKNOWN"
  let language :=
    if substrIn "th" file_name then "th"
    else if substrIn "en" file_name then "en"
    else "unknown"
  let filetype := strUpper (lastSegment '.' file_url)
  ⟨file_url, year, period, language, filetype⟩

/-- Transport outcome seen by `fetch_financial_statements`: on success the
page contributes its anchor hrefs. -/
inductive FsOutcome
  | failure
  | success (hrefs : List String)
deriving DecidableEq

/-- The returned dict of `fetch_financial_statements`. -/
structure StatementsRecord where
  symbol : String
  error : Option String
  financial_statements : List FileMeta
deriving DecidableEq

/-- `fetch_financial_statements(symbol)` from main2.py. -/
def fetch_financial_statements (symbol : String) (out : FsOutcome) : StatementsRecord :=
  match out with
  | .failure => ⟨symbol, some "Failed to fetch financial statements page", []⟩
  | .success hrefs =>
    let links := (hrefs.filter
      (fun h => extOK h && substrIn (strLower symbol) (strLower h))).map mkFileMeta
    ⟨symbol, none, links⟩

/-! ## Extractor: `fetch_historical_prices` (main2.py lines 330-362) -/

/-- Transport/decoding outcome for the price-chart API; price rows are opaque
JSON values passed through unchanged, modelled as strings. -/
inductive HpOutcome
  | failure
  | badJson
  | success (prices : List String)
deriving DecidableEq

/-- The returned dict of `fetch_historical_prices`. -/
structure PricesRecord where
  symbol : String
  error : Option String
  historical_prices : List String
deriving DecidableEq

/-- `fetch_historical_prices(symbol)` from main2.py. -/
def fetch_historical_prices (symbol : String) (out : HpOutcome) : PricesRecord :=
  match out with
  | .failure => ⟨symbol, some "Failed to fetch historical prices", []⟩
  | .badJson => ⟨symbol, some "Invalid JSON response", []⟩
  | .success ps => ⟨symbol, none, ps⟩

/-! ## Aggregator: `save_stock_data` (main2.py lines 364-392) -/

/-- The upstream worlds of all five source pipelines for one symbol, plus
whether the filesystem write (`os.makedirs` / `json.dump`) raises. -/
structure SymbolWorld where
  factsheetW : SeleniumWorld
  highlightsW : HlOutcome
  rightsW : RbOutcome
  statementsW : FsOutcome
  pricesW : HpOutcome
  saveRaises : Bool

/-- The aggregated per-symbol dict built by `save_stock_data`: one slot per
source (the `timestamp` key is real time and not modelled). -/
structure StockData where
  symbol : String
  factsheet : SelResult
  company_highlights : HighlightsRecord
  rights_benefits : RightsRecord
  financial_statements : StatementsRecord
  historical_trading : PricesRecord
deriving DecidableEq

/-- Return value of `save_stock_data`: the full dict, or — when the body
raised and the `except` branch ran — the `{"symbol": ..., "error": ...}`
dict, which is the only way a top-level `"error"` key appears. -/
inductive AggRecord
  | normal (d : StockData)
  | critical (symbol : String) (msg : String)
deriving DecidableEq

/-- `save_stock_data(symbol)` from main2.py: call the five fetchers (each
returns a record, never raises), then persist; a raise anywhere in the body
is caught and turned into the critical-error dict. -/
def save_stock_data (symbol : String) (w : SymbolWorld) : AggRecord :=
  let d : StockData :=
    ⟨symbol,
     (fetch_factsheet_selenium symbol w.factsheetW).result,
     fetch_company_highlights symbol w.highlightsW,
     fetch_rights_benefits symbol w.rightsW,
     fetch_financial_statements symbol w.statementsW,
     fetch_historical_prices symbol w.pricesW⟩
  if w.saveRaises then .critical symbol "Critical error: write failed" else .normal d

/-- Python `"error" in result` on the dict returned by `save_stock_data`:
the top-level dict has an `"error"` key exactly in the critical case —
errors inside the per-source sub-dicts are invisible to this test. -/
def hasTopError : AggRecord → Bool
  | .normal _ => false
  | .critical _ _ => true

/-- Does any of the five per-source slots carry an error marker? -/
def anySourceError (d : StockData) : Bool :=
  (match d.factsheet with
   | .err _ _ => true
   | .ok _ _ => false) ||
  d.company_highlights.error.isSome ||
  d.rights_benefits.error.isSome ||
  d.financial_statements.error.isSome ||
  d.historical_trading.error.isSome

/-- `anySourceError` lifted to the return value of `save_stock_data`. -/
def recordSourceError : AggRecord → Bool
  | .normal d => anySourceError d
  | .critical _ _ => true

/-! ## Batch runner: `batch_scrape` (main2.py lines 394-428) -/

/-- What one loop iteration's `save_stock_data(symbol)` call does: return a
record, or raise (the `except` arm of the loop body). -/
inductive IterOutcome
  | ret (r : AggRecord)
  | raised (msg : String)

/-- The record stored for the symbol: the returned one, or — in the loop's
`except` branch — the critical-error dict built there. -/
def recordOf (symbol : String) : IterOutcome → AggRecord
  | .ret r => r
  | .raised m => .critical symbol ("Critical error: " ++ m)

/-- Is the symbol appended to `failed_symbols` for this record?  In the `ret`
arm this is `"error" in result`; in the `raised` arm the append is
unconditional, and `hasTopError` of the critical dict is `true`, so the same
test describes both arms. -/
def isFailedRec (r : AggRecord) : Bool := hasTopError r

/-- The loop of `batch_scrape`: `i` is the 0-based iteration index (the
source enumerates from 1 but uses the index only for logging and pacing),
`results`/`failed` the accumulators. -/
def batchGo (iter : Nat → String → IterOutcome) :
    List String → Nat → List (String × AggRecord) → List String →
    List (String × AggRecord) × List String
  | [], _, results, failed => (results, failed)
  | s :: rest, i, results, failed =>
    let r := recordOf s (iter i s)
    batchGo iter rest (i + 1) (dictInsert results s r)
      (if isFailedRec r then failed ++ [s] else failed)

/-- `batch_scrape(symbols)` from main2.py: returns `(results, failed_symbols)`.
`iter i s` is the outcome of the `save_stock_data` call of iteration `i`. -/
def batch_scrape (symbols : List String) (iter : Nat → String → IterOutcome) :
    List (String × AggRecord) × List String :=
  batchGo iter symbols 0 [] []

/-- Specification helper: the record of the last occurrence of `s` in the
symbol list (with `i` the index of the first listed symbol), if any. -/
def lastOccRec (iter : Nat → String → IterOutcome) :
    List String → Nat → String → Option AggRecord
  | [], _, _ => none
  | x :: xs, i, s =>
    match lastOccRec iter xs (i + 1) s with
    | some r => some r
    | none => if x = s then some (recordOf x (iter i x)) else none

/-- Specification helper: the failed symbols in iteration order, one entry
per failing occurrence. -/
def failedSpec (iter : Nat → String → IterOutcome) : List String → Nat → List String
  | [], _ => []
  | x :: xs, i =>
    (if isFailedRec (recordOf x (iter i x)) then [x] else []) ++ failedSpec iter xs (i + 1)

/-- Specification helper: how many occurrences of `s` in the list fail. -/
def failedOccCount (iter : Nat → String → IterOutcome) :
    List String → Nat → String → Nat
  | [], _, _ => 0
  | x :: xs, i, s =>
    (if x = s ∧ isFailedRec (recordOf x (iter i x)) then 1 else 0) +
      failedOccCount iter xs (i + 1) s

/-- Insert a key at the end unless already present (key order of a Python
dict built by repeated assignment). -/
def keyIns (ks : List String) (x : String) : List String :=
  if keyMem ks x then ks else ks ++ [x]

/-- The key list a fold of dict inserts leaves behind. -/
def keysAfter : List String → List String → List String
  | [], ks => ks
  | x :: xs, ks => keysAfter xs (keyIns ks x)

/-- First-occurrence-ordered distinct symbols: the expected key order of the
`results` dict. -/
def distinctKeys (symbols : List String) : List String := keysAfter symbols []

end Main2

namespace Main

/-! ## main.py: the earlier, unguarded module.

`fetch_factsheet` (main.py lines 16-94) performs its own `requests.get` with
no exception handling at all, so a transport failure propagates to the
caller; several field coercions (`float` on the price text and on the 52-week
rows) are likewise unguarded.  Exceptions are modelled with `Except`. -/

/-- A value stored in the `financial_ratios` dict: the coerced number, or the
original string when the `try: float(...)` fails and `except: pass` keeps it. -/
inductive RatioVal
  | num (q : Rat)
  | str (s : String)
deriving DecidableEq

/-- main.py lines 56-59: `val = float(val.replace("%", "").replace(",", ""))`
guarded by `except: pass` — on failure the original string stays. -/
def coerceRatioVal (val : String) : RatioVal :=
  match pyFloat? (stripCommas (stripPct val)) with
  | some q => .num q
  | none => .str val

/-- The factsheet page as the source reads it off the soup. -/
structure MainPage where
  /-- `.header-1` element text, if present -/
  header1 : Option String
  /-- `div.quote-summary .price` element text, if present -/
  quotePrice : Option String
  /-- the market-cap `th`: absent, or present with its following `td` text
  (`some none` = `th` present but no sibling `td`, an `AttributeError`) -/
  marketCapTh : Option (Option String)
  /-- every `table.table-info`, as rows of `td` texts -/
  tableInfos : List (List (List String))
  /-- the 10-day-average-volume `th`, like `marketCapTh` -/
  avgVolTh : Option (Option String)

/-- Transport outcome for main.py's plain `requests.get` calls: a raise, or a
page. -/
inductive MainOutcome
  | failure (e : String)
  | success (page : MainPage)

/-- The dict `fetch_factsheet` returns on the non-raising path. -/
structure FactsheetData where
  symbol : String
  company_name : Option String
  price : Option Rat
  market_cap : Option Rat
  financial_ratios : List (String × RatioVal)
  dividend_info : List (String × RatioVal)
  high_52w : Option Rat
  low_52w : Option Rat
  /-- `none` = key absent (no matching `th`), `some none` = stored `None` -/
  avg_volume_10d : Option (Option Int)
deriving DecidableEq

/-- Section 3 of `fetch_factsheet`: build the ratios dict from the first
`table.table-info`, keeping only rows with exactly two `td`s. -/
def buildRatios (firstTable : Option (List (List String))) : List (String × RatioVal) :=
  match firstTable with
  | none => []
  | some rows =>
    rows.foldl
      (fun acc row =>
        match row with
        | [k, v] => dictInsert acc (pyStrip k) (coerceRatioVal (pyStrip v))
        | _ => acc)
      []

/-- Section 5 of `fetch_factsheet`: scan every `table.table-info` row; the
`float` calls on the 52-week high/low values are unguarded, so a parse
failure raises. -/
def price52wFold (rows : List (List String)) : Except String (Option Rat × Option Rat) :=
  rows.foldlM
    (fun st row =>
      match row with
      | [l, v] =>
        let label := pyStrip l
        let val := pyStrip v
        if substrIn "สูงสุด 52 สัปดาห์" label then
          match pyFloat? (stripCommas val) with
          | some q => Except.ok (some q, st.2)
          | none => Except.error "ValueError"
        else if substrIn "ต่ำสุด 52 สัปดาห์" label then
          match pyFloat? (stripCommas val) with
          | some q => Except.ok (st.1, some q)
          | none => Except.error "ValueError"
        else Except.ok st
      | _ => Except.ok st)
    (none, none)

/-- `fetch_factsheet(symbol)` from main.py lines 16-94.  There is no handler
anywhere in the function: a transport failure or an unguarded coercion
failure propagates to the caller as `Except.error`. -/
def fetch_factsheet (symbol : String) (out : MainOutcome) : Except String FactsheetData :=
  match out with
  | .failure e => Except.error e
  | .success page => do
    let company_name := page.header1.map pyStrip
    let price ←
      match page.quotePrice with
      | none => Except.ok none
      | some t =>
        match pyFloat? (stripCommas t) with
        | some q => Except.ok (some q)
        | none => Except.error "ValueError"
    let market_cap ←
      match page.marketCapTh with
      | none => Except.ok none
      | some none => Except.error "AttributeError"
      | some (some v) =>
        Except.ok
          (match pyFloat? (stripCommas (pyStrip v)) with
           | some q => some (q * 1000000)
           | none => none)
    let ratios := buildRatios page.tableInfos.head?
    let dividend_info := ratios.filter
      (fun p => substrIn "Dividend" p.1 || substrIn "ปันผล" p.1)
    let p52 ← price52wFold page.tableInfos.flatten
    let avg ←
      match page.avgVolTh with
      | none => Except.ok none
      | some none => Except.error "AttributeError"
      | some (some v) =>
        Except.ok (some (pyInt? (stripCommas (pyStrip v))))
    Except.ok ⟨symbol, company_name, price, market_cap, ratios, dividend_info,
      p52.1, p52.2, avg⟩

/-! ## `fetch_factsheet_selenium` (main.py lines 262-287)

`driver = webdriver.Chrome(...)` then `driver.get(url)` with no `try`/
`finally`: `driver.quit()` on line 271 is reached only if nothing before it
raises. -/

/-- The selenium-rendered factsheet page of main.py, pre-extracted. -/
structure MSelPage where
  h1Security : Option String
  spanLastPrice : Option String
  /-- market-cap marker div: absent, or present with its `find_next("div")`
  text (`some none` = no following div, an `AttributeError`) -/
  marketCapDiv : Option (Option String)

/-- World for main.py's selenium fetch. -/
structure MSelWorld where
  chromeRaises : Bool
  getRaises : Bool
  page : MSelPage

/-- The dict main.py's `fetch_factsheet_selenium` returns. -/
structure MSelData where
  symbol : String
  company_name : Option String
  price : Option String
  market_cap : Option String

/-- Execution trace of main.py's selenium fetch. -/
structure MSelTrace where
  acquired : Bool
  released : Bool
  result : Except String MSelData

/-- `fetch_factsheet_selenium(symbol)` from main.py: no `finally`, so a raise
during `driver.get` leaves the driver unreleased. -/
def fetch_factsheet_selenium (symbol : String) (w : MSelWorld) : MSelTrace :=
  if w.chromeRaises then ⟨false, false, Except.error "WebDriverException"⟩
  else if w.getRaises then ⟨true, false, Except.error "WebDriverException"⟩
  else
    -- `driver.quit()` on line 271 runs before the field extraction below.
    match w.page.marketCapDiv with
    | some none => ⟨true, true, Except.error "AttributeError"⟩
    | mc =>
      ⟨true, true, Except.ok
        ⟨symbol, w.page.h1Security.map pyStrip, w.page.spanLastPrice.map pyStrip,
         (mc.bind id).map pyStrip⟩⟩

end Main

/-! ## Specification-side definitions and concrete worlds used by the claims -/

/-- Specification predicate for the year field: absent, or the decimal
numeral of a number in the range 2000-2099. -/
def yearOK : Option String → Prop
  | none => True
  | some s => 2000 ≤ natOfDigits s.toList ∧ natOfDigits s.toList ≤ 2099

/-- The strings the period regex `q[1-4]|y(?:early)?` can match. -/
def rawPeriods : List (List Char) :=
  [['q', '1'], ['q', '2'], ['q', '3'], ['q', '4'], ['y'], ['y', 'e', 'a', 'r', 'l', 'y']]

/-- A per-symbol world in which the company-highlights source fails (its
`safe_request` returns `None`) while the four other sources succeed and the
snapshot write succeeds. -/
def oneSourceFailWorld : Main2.SymbolWorld :=
  ⟨⟨fun _ => true, false, "page", "reloaded page", false⟩,
   Main2.HlOutcome.failure,
   Main2.RbOutcome.success [],
   Main2.FsOutcome.success [],
   Main2.HpOutcome.success [],
   false⟩

/-- A concrete well-behaved aggregated record for batch tests. -/
def okStockData : Main2.StockData :=
  ⟨"BB", Main2.SelResult.ok "BB" "page", ⟨"BB", none, some []⟩, ⟨"BB", none, []⟩,
   ⟨"BB", none, []⟩, ⟨"BB", none, []⟩⟩

/-- A concrete batch iteration oracle: the first iteration raises, every
later one returns a clean record. -/
def demoIter : Nat → String → Main2.IterOutcome := fun i _ =>
  if i = 0 then Main2.IterOutcome.raised "boom"
  else Main2.IterOutcome.ret (Main2.AggRecord.normal okStockData)

/-! ## Helper lemmas -/

lemma keyMem_eq_true_iff (ks : List String) (s : String) : keyMem ks s = true ↔ s ∈ ks := by
  induction ks with
  | nil => simp [keyMem]
  | cons x xs ih =>
    by_cases h : x = s
    · subst h; simp [keyMem]
    · simp [keyMem, h, ih, Ne.symm h]

lemma keyMem_append (a b : List String) (s : String) :
    keyMem (a ++ b) s = (keyMem a s || keyMem b s) := by
  induction a with
  | nil => simp [keyMem]
  | cons x xs ih =>
    by_cases h : x = s <;> simp [keyMem, h, ih]

lemma charIn_mem {c : Char} : ∀ {l : List Char}, charIn c l = true → c ∈ l := by
  intro l
  induction l with
  | nil => intro h; simp [charIn] at h
  | cons x xs ih =>
    intro h
    by_cases hx : x = c
    · subst hx; exact List.mem_cons_self x xs
    · rw [charIn, if_neg hx] at h
      exact List.mem_cons_of_mem x (ih h)

lemma dictLookup_insert {β : Type} (d : List (String × β)) (k s : String) (v : β) :
    dictLookup (dictInsert d k v) s = if k = s then some v else dictLookup d s := by
  induction d with
  | nil =>
    simp only [dictInsert, dictLookup]
  | cons p rest ih =>
    obtain ⟨k0, v0⟩ := p
    by_cases h0 : k0 = k
    · subst h0
      simp only [dictInsert, if_pos rfl, dictLookup]
      by_cases hs : k0 = s <;> simp [hs]
    · simp only [dictInsert, if_neg h0, dictLookup]
      by_cases hs : k0 = s
      · subst hs
        simp [Ne.symm h0]
      · simp [hs, ih]

lemma keys_dictInsert {β : Type} (d : List (String × β)) (k : String) (v : β) :
    (dictInsert d k v).map Prod.fst = Main2.keyIns (d.map Prod.fst) k := by
  induction d with
  | nil => simp [dictInsert, Main2.keyIns, keyMem]
  | cons p rest ih =>
    obtain ⟨k0, v0⟩ := p
    by_cases h0 : k0 = k
    · subst h0
      simp [dictInsert, Main2.keyIns, keyMem]
    · simp only [dictInsert, if_neg h0, List.map_cons, ih, Main2.keyIns, keyMem, if_neg h0]
      by_cases hm : keyMem (rest.map Prod.fst) k <;> simp [hm]

lemma length_dictInsert {β : Type} (d : List (String × β)) (k : String) (v : β) :
    (dictInsert d k v).length =
      if keyMem (d.map Prod.fst) k then d.length else d.length + 1 := by
  induction d with
  | nil => simp [dictInsert, keyMem]
  | cons p rest ih =>
    obtain ⟨k0, v0⟩ := p
    by_cases h0 : k0 = k
    · subst h0; simp [dictInsert, keyMem]
    · simp only [dictInsert, if_neg h0, List.length_cons, List.map_cons, keyMem, if_neg h0, ih]
      by_cases hm : keyMem (rest.map Prod.fst) k <;> simp [hm]

lemma nodup_keyIns (ks : List String) (k : String) (h : ks.Nodup) :
    (Main2.keyIns ks k).Nodup := by
  unfold Main2.keyIns
  by_cases hm : keyMem ks k
  · simp [hm, h]
  · have hnotmem : k ∉ ks := fun hmem => hm ((keyMem_eq_true_iff ks k).mpr hmem)
    simp [hm, List.nodup_append, h, hnotmem]

lemma mem_keyIns_of_mem (ks : List String) (k s : String) (h : s ∈ ks) :
    s ∈ Main2.keyIns ks k := by
  unfold Main2.keyIns
  by_cases hm : keyMem ks k <;> simp [hm, h]

lemma mem_keyIns_self (ks : List String) (k : String) : k ∈ Main2.keyIns ks k := by
  unfold Main2.keyIns
  by_cases hm : keyMem ks k
  · simp [hm, (keyMem_eq_true_iff ks k).mp hm]
  · simp [hm]

lemma safeRequestGo_all_raise (world : Nat → Main2.Attempt)
    (h : ∀ j, Main2.attemptRaises (world j) = true) :
    ∀ (r i : Nat), Main2.safeRequestGo world i r = (none, i + r) := by
  intro r
  induction r with
  | zero => intro i; simp [Main2.safeRequestGo]
  | succ n ih =>
    intro i
    have hi := h i
    unfold Main2.safeRequestGo
    cases hw : world i with
    | exn m =>
      by_cases hn : n = 0
      · subst hn; simp
      · simp only [hn, if_false, ih (i + 1)]
        have : i + 1 + n = i + (n + 1) := by omega
        rw [this]
    | resp s b =>
      have hs : 400 ≤ s := by
        rw [hw] at hi
        simpa [Main2.attemptRaises] using hi
      by_cases hn : n = 0
      · subst hn; simp [hs]
      · simp only [hs, if_true, if_pos, hn, if_false, ih (i + 1)]
        have : i + 1 + n = i + (n + 1) := by omega
        rw [this]

lemma safeRequest_exhausts (world : Nat → Main2.Attempt)
    (h : ∀ j, Main2.attemptRaises (world j) = true) (m : Nat) :
    Main2.safe_request world m = (none, m) := by
  unfold Main2.safe_request
  rw [safeRequestGo_all_raise world h m 0]
  simp

lemma batchGo_failed (iter : Nat → String → Main2.IterOutcome) :
    ∀ (rest : List String) (i : Nat) (results : List (String × Main2.AggRecord))
      (failed : List String),
    (Main2.batchGo iter rest i results failed).2 = failed ++ Main2.failedSpec iter rest i := by
  intro rest
  induction rest with
  | nil => intro i results failed; simp [Main2.batchGo, Main2.failedSpec]
  | cons x xs ih =>
    intro i results failed
    unfold Main2.batchGo Main2.failedSpec
    by_cases hf : Main2.isFailedRec (Main2.recordOf x (iter i x))
    · simp [hf, ih, List.append_assoc]
    · simp [hf, ih]

lemma batchGo_lookup (iter : Nat → String → Main2.IterOutcome) :
    ∀ (rest : List String) (i : Nat) (results : List (String × Main2.AggRecord))
      (failed : List String) (s : String),
    dictLookup (Main2.batchGo iter rest i results failed).1 s =
      match Main2.lastOccRec iter rest i s with
      | some r => some r
      | none => dictLookup results s := by
  intro rest
  induction rest with
  | nil => intro i results failed s; simp [Main2.batchGo, Main2.lastOccRec]
  | cons x xs ih =>
    intro i results failed s
    unfold Main2.batchGo Main2.lastOccRec
    rw [ih]
    cases hxs : Main2.lastOccRec iter xs (i + 1) s with
    | some r => simp
    | none =>
      simp only []
      rw [dictLookup_insert]
      by_cases hx : x = s
      · subst hx; simp
      · simp [hx]

lemma batchGo_keys (iter : Nat → String → Main2.IterOutcome) :
    ∀ (rest : List String) (i : Nat) (results : List (String × Main2.AggRecord))
      (failed : List String),
    (Main2.batchGo iter rest i results failed).1.map Prod.fst =
      Main2.keysAfter rest (results.map Prod.fst) := by
  intro rest
  induction rest with
  | nil => intro i results failed; simp [Main2.batchGo, Main2.keysAfter]
  | cons x xs ih =>
    intro i results failed
    unfold Main2.batchGo Main2.keysAfter
    rw [ih, keys_dictInsert]

lemma mem_keysAfter : ∀ (xs ks : List String) (s : String),
    s ∈ ks ∨ s ∈ xs → s ∈ Main2.keysAfter xs ks := by
  intro xs
  induction xs with
  | nil =>
    intro ks s h
    rcases h with h | h
    · simpa [Main2.keysAfter] using h
    · simp at h
  | cons y ys ih =>
    intro ks s h
    unfold Main2.keysAfter
    rcases h with h | h
    · exact ih _ s (Or.inl (mem_keyIns_of_mem ks y s h))
    · rcases List.mem_cons.mp h with h | h
      · subst h; exact ih _ s (Or.inl (mem_keyIns_self ks s))
      · exact ih _ s (Or.inr h)

lemma nodup_keysAfter : ∀ (xs ks : List String), ks.Nodup → (Main2.keysAfter xs ks).Nodup := by
  intro xs
  induction xs with
  | nil => intro ks h; simpa [Main2.keysAfter] using h
  | cons y ys ih =>
    intro ks h
    unfold Main2.keysAfter
    exact ih _ (nodup_keyIns ks y h)

lemma batchGo_length_nodup (iter : Nat → String → Main2.IterOutcome) :
    ∀ (rest : List String) (i : Nat) (results : List (String × Main2.AggRecord))
      (failed : List String),
    rest.Nodup → (∀ x ∈ rest, keyMem (results.map Prod.fst) x = false) →
    (Main2.batchGo iter rest i results failed).1.length = results.length + rest.length := by
  intro rest
  induction rest with
  | nil => intro i results failed _ _; simp [Main2.batchGo]
  | cons x xs ih =>
    intro i results failed hnd hmem
    have hx : keyMem (results.map Prod.fst) x = false := hmem x (List.mem_cons_self x xs)
    have hkeys : ∀ y ∈ xs, keyMem ((dictInsert results x
        (Main2.recordOf x (iter i x))).map Prod.fst) y = false := by
      intro y hy
      rw [keys_dictInsert]
      unfold Main2.keyIns
      rw [hx]
      simp only [Bool.false_eq_true, if_false]
      rw [keyMem_append, hmem y (List.mem_cons_of_mem x hy)]
      have hxy : x ≠ y := fun h => (List.nodup_cons.mp hnd).1 (h ▸ hy)
      simp [keyMem, hxy]
    unfold Main2.batchGo
    rw [ih (i + 1) _ _ (List.Nodup.of_cons hnd) hkeys, length_dictInsert, hx]
    simp only [Bool.false_eq_true, if_false, List.length_cons]
    omega

lemma count_failedSpec (iter : Nat → String → Main2.IterOutcome) :
    ∀ (rest : List String) (i : Nat) (s : String),
    (Main2.failedSpec iter rest i).count s = Main2.failedOccCount iter rest i s := by
  intro rest
  induction rest with
  | nil => intro i s; simp [Main2.failedSpec, Main2.failedOccCount]
  | cons x xs ih =>
    intro i s
    unfold Main2.failedSpec Main2.failedOccCount
    rw [List.count_append, ih]
    by_cases hf : Main2.isFailedRec (Main2.recordOf x (iter i x))
    · by_cases hx : x = s
      · subst hx
        simp [hf, List.count_cons]
      · simp [hf, hx, List.count_cons, Ne.symm hx]
    · by_cases hx : x = s
      · subst hx
        simp [hf]
      · simp [hf, hx]

/-! ## Structure of the filename regex searches -/

lemma natOfDigits_year {a b : Char} (ha : charIn a digitClass = true)
    (hb : charIn b digitClass = true) :
    2000 ≤ natOfDigits ['2', '0', a, b] ∧ natOfDigits ['2', '0', a, b] ≤ 2099 := by
  have ha' : a ∈ digitClass := charIn_mem ha
  have hb' : b ∈ digitClass := charIn_mem hb
  fin_cases ha' <;> fin_cases hb' <;> decide

lemma matchYearAt_some : ∀ (cs m : List Char), Main2.matchYearAt cs = some m →
    ∃ a b, charIn a digitClass = true ∧ charIn b digitClass = true ∧
      m = ['2', '0', a, b] := by
  intro cs m h
  unfold Main2.matchYearAt at h
  split at h
  · rename_i a b rest
    split at h
    · rename_i hab
      obtain ⟨ha, hb⟩ := Bool.and_eq_true_iff.mp hab
      exact ⟨a, b, ha, hb, (Option.some_inj.mp h).symm⟩
    · exact absurd h (by simp)
  · exact absurd h (by simp)

lemma searchYear_some : ∀ (cs m : List Char), Main2.searchYear cs = some m →
    ∃ a b, charIn a digitClass = true ∧ charIn b digitClass = true ∧
      m = ['2', '0', a, b] := by
  intro cs
  induction cs with
  | nil => intro m h; simp [Main2.searchYear] at h
  | cons c rest ih =>
    intro m h
    unfold Main2.searchYear at h
    cases hM : Main2.matchYearAt (c :: rest) with
    | none => rw [hM] at h; exact ih m h
    | some m' =>
      rw [hM] at h
      obtain rfl : m' = m := Option.some_inj.mp h
      exact matchYearAt_some _ _ hM

lemma matchPeriodAt_some : ∀ (cs m : List Char), Main2.matchPeriodAt cs = some m →
    m ∈ rawPeriods := by
  intro cs m h
  unfold Main2.matchPeriodAt at h
  split at h
  · rename_i c rest
    split at h
    · rename_i hc
      obtain rfl : (['q', c] : List Char) = m := Option.some_inj.mp h
      have := charIn_mem hc
      fin_cases this <;> decide
    · exact absurd h (by simp)
  · rename_i rest
    split at h
    · obtain rfl := Option.some_inj.mp h
      decide
    · obtain rfl := Option.some_inj.mp h
      decide
  · exact absurd h (by simp)

lemma searchPeriod_some : ∀ (cs m : List Char), Main2.searchPeriod cs = some m →
    m ∈ rawPeriods := by
  intro cs
  induction cs with
  | nil => intro m h; simp [Main2.searchPeriod] at h
  | cons c rest ih =>
    intro m h
    unfold Main2.searchPeriod at h
    cases hM : Main2.matchPeriodAt (c :: rest) with
    | none => rw [hM] at h; exact ih m h
    | some m' =>
      rw [hM] at h
      obtain rfl : m' = m := Option.some_inj.mp h
      exact matchPeriodAt_some _ _ hM

lemma rawPeriods_upper : ∀ m ∈ rawPeriods,
    strUpper (String.mk m) ∈ (["Q1", "Q2", "Q3", "Q4", "Y", "YEARLY", "UNKNOWN"] : List String) := by
  intro m hm
  fin_cases hm <;> decide

lemma yearOK_search (fn : List Char) : yearOK ((Main2.searchYear fn).map String.mk) := by
  cases hY : Main2.searchYear fn with
  | none => simp [yearOK]
  | some m =>
    obtain ⟨a, b, ha, hb, rfl⟩ := searchYear_some fn m hY
    show yearOK (some (String.mk ['2', '0', a, b]))
    have hl : (String.mk ['2', '0', a, b]).toList = ['2', '0', a, b] := rfl
    simp only [yearOK, hl]
    exact natOfDigits_year ha hb

lemma period_search_mem (fn : List Char) :
    (match Main2.searchPeriod fn with
     | some m => strUpper (String.mk m)
     | none => "UNKNOWN") ∈
      (["Q1", "Q2", "Q3", "Q4", "Y", "YEARLY", "UNKNOWN"] : List String) := by
  cases hP : Main2.searchPeriod fn with
  | none => decide
  | some m => exact rawPeriods_upper m (searchPeriod_some fn m hP)

lemma language_mem (fn : String) :
    (if substrIn "th" fn then "th" else if substrIn "en" fn then "en" else "unknown") ∈
      (["th", "en", "unknown"] : List String) := by
  split_ifs <;> decide

/-! ## Claim theorems -/

/-- **C1, counterexample.** The claim says every extractor returns a
PartialRecord for every FetchOutcome, including a transport Failure, and
never raises past its own boundary.  main.py's `fetch_factsheet` has no
exception handler: on a transport Failure the `requests.get` exception
propagates to the caller instead of an error-tagged record being returned. -/
theorem c1_counterexample :
    Main.fetch_factsheet "24CS" (Main.MainOutcome.failure "ConnectionError") =
      Except.error "ConnectionError" := rfl

/-- **C1, amended.** The extractors of the improved module main2.py do return
an error-marked PartialRecord with empty (or absent) data fields on every
transport Failure, and a failed driver creation in the rendered fetch also
yields an error record rather than an exception; main.py's `fetch_factsheet`,
however, propagates transport exceptions (see the counterexample). -/
theorem c1_amended_extractors_absorb_failure (s : String) :
    Main2.fetch_company_highlights s Main2.HlOutcome.failure =
      ⟨s, some "Failed to fetch highlights page", none⟩ ∧
    Main2.fetch_rights_benefits s Main2.RbOutcome.failure =
      ⟨s, some "Failed to fetch rights & benefits", []⟩ ∧
    Main2.fetch_rights_benefits s Main2.RbOutcome.badJson =
      ⟨s, some "Invalid JSON response", []⟩ ∧
    Main2.fetch_financial_statements s Main2.FsOutcome.failure =
      ⟨s, some "Failed to fetch financial statements page", []⟩ ∧
    Main2.fetch_historical_prices s Main2.HpOutcome.failure =
      ⟨s, some "Failed to fetch historical prices", []⟩ ∧
    (Main2.fetch_factsheet_selenium s
        ⟨fun _ => false, false, "", "", false⟩).result =
      Main2.SelResult.err s "Failed to create driver" :=
  ⟨rfl, rfl, rfl, rfl, rfl, rfl⟩

/-- **C2, counterexample.** The claim says the aggregated record's overall
status is `ok` only if no PartialRecord carries an error marker and `partial`
otherwise.  In the world where exactly the company-highlights source fails,
the stored record carries a source-level error marker, yet the top-level dict
carries no `"error"` key and `batch_scrape` classifies the symbol as
successful — the failed-symbols list stays empty. -/
theorem c2_counterexample :
    Main2.recordSourceError (Main2.save_stock_data "24CS" oneSourceFailWorld) = true ∧
    Main2.hasTopError (Main2.save_stock_data "24CS" oneSourceFailWorld) = false ∧
    (Main2.batch_scrape ["24CS"]
      (fun _ s => Main2.IterOutcome.ret (Main2.save_stock_data s oneSourceFailWorld))).2 =
      [] :=
  ⟨rfl, rfl, rfl⟩

/-- **C2, amended.** Every non-critical aggregation yields a record with one
slot per source, each slot exactly its own extractor's output — so successful
sibling sources are retained when one source fails — but the code derives no
`ok`/`partial` status from the slots: the only failure classification is the
top-level `"error"` key, present exactly when the aggregation body itself
raised, so a record with failed sources is classified as successful. -/
theorem c2_amended_slots_and_classification (s : String) (w : Main2.SymbolWorld) :
    Main2.hasTopError (Main2.save_stock_data s w) = w.saveRaises ∧
    (w.saveRaises = false →
      Main2.save_stock_data s w = Main2.AggRecord.normal
        ⟨s, (Main2.fetch_factsheet_selenium s w.factsheetW).result,
         Main2.fetch_company_highlights s w.highlightsW,
         Main2.fetch_rights_benefits s w.rightsW,
         Main2.fetch_financial_statements s w.statementsW,
         Main2.fetch_historical_prices s w.pricesW⟩) := by
  cases hs : w.saveRaises <;>
    simp [Main2.save_stock_data, Main2.hasTopError, hs]

/-- **C2, witness.** The amended statement instantiated at a concrete world
with a successful snapshot write. -/
theorem c2_amended_witness :
    Main2.hasTopError (Main2.save_stock_data "24CS" oneSourceFailWorld) = false ∧
    Main2.save_stock_data "24CS" oneSourceFailWorld = Main2.AggRecord.normal
      ⟨"24CS",
       (Main2.fetch_factsheet_selenium "24CS" oneSourceFailWorld.factsheetW).result,
       Main2.fetch_company_highlights "24CS" oneSourceFailWorld.highlightsW,
       Main2.fetch_rights_benefits "24CS" oneSourceFailWorld.rightsW,
       Main2.fetch_financial_statements "24CS" oneSourceFailWorld.statementsW,
       Main2.fetch_historical_prices "24CS" oneSourceFailWorld.pricesW⟩ :=
  ⟨(c2_amended_slots_and_classification "24CS" oneSourceFailWorld).1,
   (c2_amended_slots_and_classification "24CS" oneSourceFailWorld).2 rfl⟩

/-- **C3.** The batch runner visits the symbols in input order, stores a
record for every requested symbol (a failing iteration stores a
critical-error record and the loop continues), and returns the failed
symbols as an explicit list in iteration order; the key order of the results
mapping is the first-occurrence order of the input. -/
theorem c3_batch_contract (symbols : List String) (iter : Nat → String → Main2.IterOutcome) :
    (symbols.all fun s => containsKey (Main2.batch_scrape symbols iter).1 s) = true ∧
    (Main2.batch_scrape symbols iter).2 = Main2.failedSpec iter symbols 0 ∧
    (Main2.batch_scrape symbols iter).1.map Prod.fst = Main2.distinctKeys symbols := by
  refine ⟨?_, ?_, ?_⟩
  · rw [List.all_eq_true]
    intro s hs
    unfold containsKey Main2.batch_scrape
    rw [batchGo_keys]
    rw [keyMem_eq_true_iff]
    exact mem_keysAfter symbols _ s (Or.inr hs)
  · unfold Main2.batch_scrape
    rw [batchGo_failed]
    simp
  · unfold Main2.batch_scrape Main2.distinctKeys
    rw [batchGo_keys]
    rfl

/-- **C4, counterexample.** The claim says a single 404-class response yields
Failure after exactly one attempt.  `safe_request` catches every
`RequestException`, and `raise_for_status` turns a 404 into such an
exception, so a constant-404 source is retried until all 3 default attempts
are consumed. -/
theorem c4_counterexample :
    Main2.safe_request (fun _ => Main2.Attempt.resp 404 "Not Found") 3 ≠ (none, 1) ∧
    Main2.safe_request (fun _ => Main2.Attempt.resp 404 "Not Found") 3 = (none, 3) :=
  ⟨by decide, rfl⟩

/-- **C4, amended.** `safe_request` does not distinguish transient from
permanent conditions: a 404-class response is retried like any other
`RequestException`, consuming every configured attempt before `None` is
returned, and the retry loop genuinely continues past the 404 — a later
successful attempt is returned. -/
theorem c4_amended_404_is_retried :
    (∀ m : Nat, Main2.safe_request (fun _ => Main2.Attempt.resp 404 "Not Found") m = (none, m)) ∧
    Main2.safe_request
      (fun i => if i = 0 then Main2.Attempt.resp 404 "Not Found"
                else Main2.Attempt.resp 200 "ok") 3 = (some (200, "ok"), 2) := by
  refine ⟨fun m => safeRequest_exhausts
    (fun _ => Main2.Attempt.resp 404 "Not Found") (fun j => rfl) m, rfl⟩

/-- **C5, counterexample.** The claim says that after exhausting its retries
the transport returns a Failure outcome carrying the last error and the
attempt count.  The returned value is the bare `None` in every such case:
runs whose last errors differ, and runs whose attempt counts differ, all
return the identical value, so the returned outcome carries neither. -/
theorem c5_counterexample :
    (Main2.safe_request (fun _ => Main2.Attempt.exn "ReadTimeout") 3).1 = none ∧
    (Main2.safe_request (fun _ => Main2.Attempt.exn "ConnectionError") 3).1 = none ∧
    (Main2.safe_request (fun _ => Main2.Attempt.exn "ReadTimeout") 1).1 = none :=
  ⟨rfl, rfl, rfl⟩

/-- **C5, amended.** For a source whose every attempt raises a
`RequestException`, `safe_request` performs exactly `max_retries` attempts
(default 3) and then returns `None` — a bare failure marker; the last error
and the attempt count are only logged, not carried by the returned value —
and it never raises past its boundary. -/
theorem c5_amended_retry_bound (world : Nat → Main2.Attempt)
    (h : ∀ j, Main2.attemptRaises (world j) = true) (m : Nat) :
    Main2.safe_request world m = (none, m) :=
  safeRequest_exhausts world h m

/-- **C5, witness.** The amended retry bound at a concrete always-timeout
source with the default 3 attempts. -/
theorem c5_amended_retry_bound_witness :
    Main2.safe_request (fun _ => Main2.Attempt.exn "ReadTimeout") 3 = (none, 3) :=
  c5_amended_retry_bound (fun _ => Main2.Attempt.exn "ReadTimeout") (fun _ => rfl) 3

/-- **C6, counterexample.** The claim says that in every extractor's numeric
coercion `"1,234.50%"` parses to `1234.50` and `"-"` and `""` map to null.
In main2.py's highlights extractor the percent sign is not stripped, so a row
holding `"1,234.50%"` aborts with `ValueError` and is dropped; in main.py's
ratio coercion `"-"` and `""` are kept as strings, not mapped to null. -/
theorem c6_counterexample :
    Main2.parseFinRow
      ["2566", "1,234.50%", "10", "1.0", "1.0", "1.0", "1.0", "1.0", "1.0"] = none ∧
    Main.coerceRatioVal "-" = Main.RatioVal.str "-" ∧
    Main.coerceRatioVal "" = Main.RatioVal.str "" :=
  ⟨rfl, rfl, rfl⟩

/-- **C6, amended.** The two coercions each implement half of the claimed
policy.  main2.py's highlights fields strip thousands separators and map
`"-"`/`""` to null, and a comma-stripped `"1,234.50"` parses to `1234.50`,
but a percent sign makes the whole row be skipped.  main.py's ratio coercion
strips both commas and percent signs, so `"1,234.50%"` parses to `1234.50`,
but `"-"` and `""` stay strings instead of becoming null. -/
theorem c6_amended_numeric_coercion :
    Main2.numField "" = Except.ok none ∧
    Main2.numField "-" = Except.ok none ∧
    Main2.numField (stripCommas "1,234.50") = Except.ok (some (1234.5 : Rat)) ∧
    Main2.parseFinRow
      ["2566", "1,234.50%", "10", "1.0", "1.0", "1.0", "1.0", "1.0", "1.0"] = none ∧
    Main.coerceRatioVal "1,234.50%" = Main.RatioVal.num (1234.5 : Rat) ∧
    Main.coerceRatioVal "-" = Main.RatioVal.str "-" ∧
    Main.coerceRatioVal "" = Main.RatioVal.str "" := by
  refine ⟨rfl, rfl, ?_, rfl, ?_, rfl, rfl⟩
  · simp [Main2.numField, stripCommas, pyFloat?, pyFloatCore, pyStrip, isSpaceChar,
      natOfDigits, digitVal]
    norm_num
  · simp [Main.coerceRatioVal, stripCommas, stripPct, pyFloat?, pyFloatCore, pyStrip,
      isSpaceChar, natOfDigits, digitVal]
    norm_num

/-- **C7.** The financial-statement metadata is derived purely from the
URL/filename: a year field that, when present, is a four-digit token in
[2000, 2099]; a period that is always one of Q1-Q4, a yearly marker
(`Y`/`YEARLY`) or `UNKNOWN`; a language in {th, en, unknown}; and on the
claim's concrete filenames exactly the claimed values, the type being the
uppercased file extension. -/
theorem c7_filename_metadata (href : String) :
    yearOK (Main2.mkFileMeta href).year ∧
    (Main2.mkFileMeta href).period ∈
      (["Q1", "Q2", "Q3", "Q4", "Y", "YEARLY", "UNKNOWN"] : List String) ∧
    (Main2.mkFileMeta href).language ∈ (["th", "en", "unknown"] : List String) ∧
    Main2.mkFileMeta "/abc_2023_q2_en.pdf" =
      ⟨"https://www.set.or.th/abc_2023_q2_en.pdf", some "2023", "Q2", "en", "PDF"⟩ ∧
    (Main2.mkFileMeta "/abc_yearly_th.xlsx").period = "YEARLY" ∧
    (Main2.mkFileMeta "/abc_yearly_th.xlsx").language = "th" ∧
    (Main2.mkFileMeta "/abc_yearly_th.xlsx").filetype = "XLSX" := by
  refine ⟨?_, ?_, ?_, by decide, by decide, by decide, by decide⟩
  · simp only [Main2.mkFileMeta]
    exact yearOK_search _
  · simp only [Main2.mkFileMeta]
    exact period_search_mem _
  · simp only [Main2.mkFileMeta]
    exact language_mem _

/-- **C8, counterexample.** The claim says every rendered-page fetch that
acquires the browser releases it on all exit paths.  main.py's
`fetch_factsheet_selenium` has no `try`/`finally`: when `driver.get` raises,
the driver has been acquired but `driver.quit()` is never reached. -/
theorem c8_counterexample :
    (Main.fetch_factsheet_selenium "24CS" ⟨false, true, ⟨none, none, none⟩⟩).acquired = true ∧
    (Main.fetch_factsheet_selenium "24CS" ⟨false, true, ⟨none, none, none⟩⟩).released = false :=
  ⟨rfl, rfl⟩

/-- **C8, amended.** main2.py's rendered-page fetch releases the driver on
every exit path on which it was acquired — success, error record, or
unexpected fault — via its `finally` block (release happens exactly when
acquisition did); main.py's variant leaks the driver when the page load
raises (see the counterexample). -/
theorem c8_amended_main2_release (s : String) (w : Main2.SeleniumWorld) :
    (Main2.fetch_factsheet_selenium s w).released =
      (Main2.fetch_factsheet_selenium s w).acquired := by
  cases hd : (Main2.get_safe_driver w.driverWorld 3).1 <;>
  cases hg : w.getRaises <;>
  cases hb : w.bodyRaises <;>
  cases hp : Main2.pageIncomplete w.initialSource <;>
    simp [Main2.fetch_factsheet_selenium, hd, hg, hb, hp]

/-- **C9.** In main2.py's rendered-page fetch, once the page has loaded the
reload happens exactly once when the settled content looks incomplete
(not-found marker present or fewer than 1000 characters) and never
otherwise, so at most once per fetch; the driver-creation retry budget is
determined by the creation oracle alone, unaffected by the reload. -/
theorem c9_reload_once (s : String) (w : Main2.SeleniumWorld) :
    (Main2.fetch_factsheet_selenium s w).refreshes =
      (if (Main2.get_safe_driver w.driverWorld 3).1.isSome && !w.getRaises &&
          Main2.pageIncomplete w.initialSource then 1 else 0) ∧
    (Main2.fetch_factsheet_selenium s w).refreshes ≤ 1 ∧
    (Main2.fetch_factsheet_selenium s w).driverAttempts =
      (Main2.get_safe_driver w.driverWorld 3).2 := by
  cases hd : (Main2.get_safe_driver w.driverWorld 3).1 <;>
  cases hg : w.getRaises <;>
  cases hb : w.bodyRaises <;>
  cases hp : Main2.pageIncomplete w.initialSource <;>
    simp [Main2.fetch_factsheet_selenium, hd, hg, hb, hp]

/-- **C10.** The results mapping of `batch_scrape` keeps exactly one entry
per distinct symbol — a duplicated symbol's entry holds the record of its
last occurrence — while the failed list counts each failing occurrence
separately; for pairwise-distinct input the mapping has exactly one entry
per input symbol. -/
theorem c10_duplicate_symbols (symbols : List String)
    (iter : Nat → String → Main2.IterOutcome) (s : String) :
    dictLookup (Main2.batch_scrape symbols iter).1 s = Main2.lastOccRec iter symbols 0 s ∧
    ((Main2.batch_scrape symbols iter).1.map Prod.fst).Nodup ∧
    (Main2.batch_scrape symbols iter).2.count s = Main2.failedOccCount iter symbols 0 s ∧
    (symbols.Nodup → (Main2.batch_scrape symbols iter).1.length = symbols.length) := by
  refine ⟨?_, ?_, ?_, ?_⟩
  · unfold Main2.batch_scrape
    rw [batchGo_lookup]
    cases Main2.lastOccRec iter symbols 0 s <;> simp [dictLookup]
  · unfold Main2.batch_scrape
    rw [batchGo_keys]
    exact nodup_keysAfter symbols _ (by simp)
  · unfold Main2.batch_scrape
    rw [batchGo_failed]
    simp [count_failedSpec]
  · intro hnd
    unfold Main2.batch_scrape
    rw [batchGo_length_nodup iter symbols 0 [] [] hnd (fun x _ => rfl)]
    simp

/-- **C10, witness.** The duplicate-handling contract at a concrete
two-symbol batch whose first iteration raises, with the distinct-input
length consequence discharged. -/
theorem c10_witness :
    dictLookup (Main2.batch_scrape ["AA", "BB"] demoIter).1 "AA" =
      Main2.lastOccRec demoIter ["AA", "BB"] 0 "AA" ∧
    ((Main2.batch_scrape ["AA", "BB"] demoIter).1.map Prod.fst).Nodup ∧
    (Main2.batch_scrape ["AA", "BB"] demoIter).2.count "AA" =
      Main2.failedOccCount demoIter ["AA", "BB"] 0 "AA" ∧
    (Main2.batch_scrape ["AA", "BB"] demoIter).1.length = 2 :=
  ⟨(c10_duplicate_symbols ["AA", "BB"] demoIter "AA").1,
   (c10_duplicate_symbols ["AA", "BB"] demoIter "AA").2.1,
   (c10_duplicate_symbols ["AA", "BB"] demoIter "AA").2.2.1,
   (c10_duplicate_symbols ["AA", "BB"] demoIter "AA").2.2.2 (by decide)⟩
